import Mathlib

/-!
Verification of the inventory-consistency core of the AgrisaleCL backend.

The definitions below are a shallow embedding of the handlers in
`src/server/routers/sales.py` and `src/server/routers/products.py`:
database tables become lists of rows, SQL `SELECT ... WHERE` becomes
`List.find?`, a conditional `UPDATE` becomes a map over the row list
together with the affected-row count (`cursor.rowcount`), and the
`conn.total_changes` counter of the pooled sqlite connection is threaded
as an explicit `tc` parameter (its value at the start of the request).
Each handler returns the response (`Except`), the committed database
state (the input state on every rolled-back path), and the list of
`UPDATE products` statements it issued, recording for each whether the
SET clause assigns `stock` and the version value in its WHERE predicate.
-/

namespace Agrisale

/-- A row of `products(id, userId, name, description, stock, unit, supplierId, version)`. -/
structure Product where
  id : Nat
  userId : Nat
  name : String
  description : String
  stock : Int
  unit : String
  supplierId : Option Nat
  version : Nat
  deriving Repr, DecidableEq

/-- A row of `sales(id, userId, productName, quantity, customerId, saleDate, totalSalePrice, note)`. -/
structure Sale where
  id : Nat
  userId : Nat
  productName : String
  quantity : Int
  customerId : Option Nat
  saleDate : String
  totalSalePrice : Int
  note : String
  deriving Repr, DecidableEq

/-- The part of a `customers` row the sales handlers read: `(id, userId)`. -/
structure Customer where
  id : Nat
  userId : Nat
  deriving Repr, DecidableEq

/-- The part of a `suppliers` row the product handlers read: `(id, userId)`. -/
structure Supplier where
  id : Nat
  userId : Nat
  deriving Repr, DecidableEq

/-- The database state: the four tables plus the next AUTOINCREMENT rowids. -/
structure DB where
  products : List Product
  sales : List Sale
  customers : List Customer
  suppliers : List Supplier
  nextProductId : Nat
  nextSaleId : Nat
  deriving Repr, DecidableEq

/-- The error taxonomy of the handlers, keyed by the raise sites:
`invalidReference` and `insufficientStock` and `duplicateName` and
`emptyUpdate` are HTTP 400, `notFound` is 404, `versionConflict` is 409. -/
inductive ApiError where
  | invalidReference
  | insufficientStock
  | versionConflict
  | notFound
  | duplicateName
  | emptyUpdate
  deriving Repr, DecidableEq

/-- HTTP status code of each error, as raised by the handlers. -/
def ApiError.status : ApiError → Nat
  | .invalidReference => 400
  | .insufficientStock => 400
  | .versionConflict => 409
  | .notFound => 404
  | .duplicateName => 400
  | .emptyUpdate => 400

/-- One `UPDATE products ...` statement as issued by a handler: whether its
SET clause assigns `stock`, and the version value in its WHERE predicate
(`none` when the predicate is only `id = ? AND userId = ?`). Every such
statement also sets `version = version + 1`. -/
structure ProdStmt where
  setsStock : Bool
  versionCond : Option Nat
  deriving Repr, DecidableEq

/-- Outcome of one handler call: response, committed database state
(unchanged on rolled-back paths), and the issued `UPDATE products`
statements. -/
structure OpResult (α : Type) where
  result : Except ApiError α
  db : DB
  trace : List ProdStmt
  deriving Repr

/-- `SELECT ... FROM products WHERE userId = ? AND name = ?` (first row). -/
def findProductByName (db : DB) (uid : Nat) (name : String) : Option Product :=
  db.products.find? fun p => p.userId == uid && p.name == name

/-- `SELECT ... FROM products WHERE id = ? AND userId = ?` (first row). -/
def findProductById (db : DB) (uid pid : Nat) : Option Product :=
  db.products.find? fun p => p.id == pid && p.userId == uid

/-- `SELECT ... FROM sales WHERE id = ? AND userId = ?` (first row). -/
def findSale (db : DB) (uid sid : Nat) : Option Sale :=
  db.sales.find? fun s => s.id == sid && s.userId == uid

/-- `SELECT id FROM customers WHERE id = ? AND userId = ?` is nonempty. -/
def customerExists (db : DB) (uid cid : Nat) : Bool :=
  db.customers.any fun c => c.id == cid && c.userId == uid

/-- `SELECT id FROM suppliers WHERE id = ? AND userId = ?` is nonempty. -/
def supplierExists (db : DB) (uid sid : Nat) : Bool :=
  db.suppliers.any fun c => c.id == sid && c.userId == uid

/-- The conditional update
`UPDATE products SET stock = ?, version = version + 1, updated_at = now
WHERE id = ? AND userId = ? AND version = ?`:
the updated product list and the affected-row count (`cursor.rowcount`). -/
def condUpdateStock (ps : List Product) (pid uid : Nat) (newStock : Int)
    (expectedVersion : Nat) : List Product × Nat :=
  ((ps.map fun p =>
      if p.id == pid && p.userId == uid && p.version == expectedVersion then
        { p with stock := newStock, version := p.version + 1 }
      else p),
   (ps.filter fun p => p.id == pid && p.userId == uid && p.version == expectedVersion).length)

/-- Request body of `POST /api/sales` (`SaleCreate`). -/
structure SaleCreate where
  productName : String
  quantity : Int
  customerId : Option Nat
  saleDate : String
  totalSalePrice : Int
  note : String
  deriving Repr, DecidableEq

/-- Request body of `PUT /api/sales/{id}` (`SaleUpdate`); every field optional. -/
structure SaleUpdate where
  productName : Option String
  quantity : Option Int
  customerId : Option Nat
  saleDate : Option String
  totalSalePrice : Option Int
  note : Option String
  deriving Repr, DecidableEq

/-- Request body of `POST /api/products` (`ProductCreate`). -/
structure ProductCreate where
  name : String
  description : String
  stock : Int
  unit : String
  supplierId : Option Nat
  deriving Repr, DecidableEq

/-- Request body of `PUT /api/products/{id}` (`ProductUpdate`); every field optional. -/
structure ProductUpdate where
  name : Option String
  description : Option String
  stock : Option Int
  unit : Option String
  supplierId : Option Nat
  version : Option Nat
  deriving Repr, DecidableEq

/-- Request body of `POST /api/products/{id}/stock` (`ProductStockUpdate`):
a signed quantity delta and the version the caller last observed. -/
structure ProductStockUpdate where
  quantity : Int
  version : Nat
  deriving Repr, DecidableEq

/-- Customer validation of `create_sale` (sales.py lines 259-269): any
provided `customerId`, including 0, must exist for this user. -/
def saleCreateCustomerInvalid (db : DB) (uid : Nat) (r : SaleCreate) : Bool :=
  match r.customerId with
  | some c => !customerExists db uid c
  | none => false

/-- Handler `create_sale` (sales.py lines 215-376). On every raised
`HTTPException` after the transaction started the code rolls back, so
every error path returns the input database state. -/
def create_sale (db : DB) (uid : Nat) (r : SaleCreate) : OpResult Sale :=
  match findProductByName db uid r.productName with
  | none => ⟨.error .invalidReference, db, []⟩
  | some product =>
    if product.stock < r.quantity then
      ⟨.error .insufficientStock, db, []⟩
    else if saleCreateCustomerInvalid db uid r then
      ⟨.error .invalidReference, db, []⟩
    else if product.stock - r.quantity < 0 then
      ⟨.error .insufficientStock, db, []⟩
    else if (condUpdateStock db.products product.id uid
        (product.stock - r.quantity) product.version).2 == 0 then
      ⟨.error .versionConflict, db, [⟨true, some product.version⟩]⟩
    else
      ⟨.ok ⟨db.nextSaleId, uid, r.productName, r.quantity, r.customerId,
            r.saleDate, r.totalSalePrice, r.note⟩,
       { db with
           products := (condUpdateStock db.products product.id uid
             (product.stock - r.quantity) product.version).1,
           sales := db.sales ++
             [⟨db.nextSaleId, uid, r.productName, r.quantity, r.customerId,
               r.saleDate, r.totalSalePrice, r.note⟩],
           nextSaleId := db.nextSaleId + 1 },
       [⟨true, some product.version⟩]⟩

/-- Python truthiness test `sale_data.productName and
sale_data.productName != old_product_name` (sales.py line 429/543):
the name counts as changed only when provided, nonempty and different. -/
def saleNameChanged (s : Sale) (u : SaleUpdate) : Bool :=
  match u.productName with
  | some p => p != "" && p != s.productName
  | none => false

/-- The product name `update_sale` resolves the stock delta against
(sales.py lines 429-451): the new name when it changed, else the old one. -/
def saleLookupName (s : Sale) (u : SaleUpdate) : String :=
  if saleNameChanged s u then u.productName.getD "" else s.productName

/-- Customer validation of `update_sale` (sales.py lines 470-481): only a
provided nonzero `customerId` is checked for existence. -/
def saleCustomerInvalid (db : DB) (uid : Nat) (u : SaleUpdate) : Bool :=
  match u.customerId with
  | some c => c != 0 && !customerExists db uid c
  | none => false

/-- The effective new quantity `sale_data.quantity if ... is not None else
old_quantity` (sales.py line 425). -/
def saleNewQuantity (s : Sale) (u : SaleUpdate) : Int := u.quantity.getD s.quantity

/-- Whether the dynamic `UPDATE sales SET ...` has at least one field
(sales.py lines 485-517). -/
def SaleUpdate.hasFields (u : SaleUpdate) : Bool :=
  u.productName.isSome || u.quantity.isSome || u.saleDate.isSome ||
  u.customerId.isSome || u.totalSalePrice.isSome || u.note.isSome

/-- The dynamic `UPDATE sales SET ...` applied to one row (sales.py lines
485-528): only provided fields are assigned; `customerId = 0` is stored
as NULL (line 503). -/
def applySaleFields (u : SaleUpdate) (s : Sale) : Sale :=
  { s with
    productName := u.productName.getD s.productName
    quantity := u.quantity.getD s.quantity
    saleDate := u.saleDate.getD s.saleDate
    customerId := match u.customerId with
      | some c => if c == 0 then none else some c
      | none => s.customerId
    totalSalePrice := u.totalSalePrice.getD s.totalSalePrice
    note := u.note.getD s.note }

/-- The sale-row update `UPDATE sales SET ... WHERE id = ? AND userId = ?`
applied to the whole table (sales.py lines 522-528). -/
def saleRowsUpdated (db : DB) (uid sid : Nat) (u : SaleUpdate) : List Sale :=
  db.sales.map fun t => if t.id == sid && t.userId == uid then applySaleFields u t else t

/-- Rows matched by the sale-row update, counted into `conn.total_changes`. -/
def saleRowsMatched (db : DB) (uid sid : Nat) : Nat :=
  (db.sales.filter fun t => t.id == sid && t.userId == uid).length

/-- The delta-target conditional update and commit of `update_sale`
(sales.py lines 568-585), over the product list `ps` left by any earlier
statement of the transaction and the statement trace `tr` so far: a
zero-row outcome raises `VersionConflict` and rolls back everything. -/
def updateSaleFinish (db : DB) (uid sid : Nat) (u : SaleUpdate) (sale : Sale)
    (product : Product) (ps : List Product) (tr : List ProdStmt) : OpResult Sale :=
  if (condUpdateStock ps product.id uid
      (product.stock + (sale.quantity - saleNewQuantity sale u)) product.version).2 == 0 then
    ⟨.error .versionConflict, db, tr ++ [⟨true, some product.version⟩]⟩
  else
    ⟨.ok (applySaleFields u sale),
     { db with
         products := (condUpdateStock ps product.id uid
           (product.stock + (sale.quantity - saleNewQuantity sale u)) product.version).1,
         sales := saleRowsUpdated db uid sid u },
     tr ++ [⟨true, some product.version⟩]⟩

/-- The cross-product branch of `update_sale` (sales.py lines 543-583):
re-read the OLD product by name; when present, restore `old_quantity` to
it through a conditional update whose "did it apply" re-check compares
`conn.total_changes` (`tc` plus the sale-row matches plus this
statement's rowcount) with 0; when absent, skip the restore silently;
then apply the new product's conditional update. -/
def updateSaleCross (db : DB) (uid sid tc : Nat) (u : SaleUpdate) (sale : Sale)
    (product : Product) : OpResult Sale :=
  match findProductByName db uid sale.productName with
  | some oldProduct =>
    if tc + saleRowsMatched db uid sid +
        (condUpdateStock db.products oldProduct.id uid
          (oldProduct.stock + sale.quantity) oldProduct.version).2 == 0 then
      ⟨.error .versionConflict, db, [⟨true, some oldProduct.version⟩]⟩
    else
      updateSaleFinish db uid sid u sale product
        (condUpdateStock db.products oldProduct.id uid
          (oldProduct.stock + sale.quantity) oldProduct.version).1
        [⟨true, some oldProduct.version⟩]
  | none => updateSaleFinish db uid sid u sale product db.products []

/-- The stock part of `update_sale` (sales.py lines 530-583): stock is
touched only when `quantity_diff != 0` (line 531); the resulting stock of
the delta-target product must be nonnegative (lines 535-540); the
old-product restore runs only when the name changed. -/
def updateSaleStockPhase (db : DB) (uid sid tc : Nat) (u : SaleUpdate) (sale : Sale)
    (product : Product) : OpResult Sale :=
  if sale.quantity - saleNewQuantity sale u = 0 then
    ⟨.ok (applySaleFields u sale), { db with sales := saleRowsUpdated db uid sid u }, []⟩
  else if product.stock + (sale.quantity - saleNewQuantity sale u) < 0 then
    ⟨.error .insufficientStock, db, []⟩
  else if saleNameChanged sale u then
    updateSaleCross db uid sid tc u sale product
  else
    updateSaleFinish db uid sid u sale product db.products []

/-- Handler `update_sale` (sales.py lines 379-643). `tc` is
`conn.total_changes` at the start of the request: the old-product
conflict re-check (line 562) compares `conn.total_changes` — which
already counts the sale-row update — with 0, not the statement's own
rowcount. -/
def update_sale (db : DB) (uid sid tc : Nat) (u : SaleUpdate) : OpResult Sale :=
  match findSale db uid sid with
  | none => ⟨.error .notFound, db, []⟩
  | some sale =>
    match findProductByName db uid (saleLookupName sale u) with
    | none => ⟨.error .invalidReference, db, []⟩
    | some product =>
      if saleNewQuantity sale u > sale.quantity ∧
          product.stock < saleNewQuantity sale u - sale.quantity then
        ⟨.error .insufficientStock, db, []⟩
      else if saleCustomerInvalid db uid u then
        ⟨.error .invalidReference, db, []⟩
      else if !u.hasFields then
        ⟨.error .emptyUpdate, db, []⟩
      else
        updateSaleStockPhase db uid sid tc u sale product

/-- Handler `delete_sale` (sales.py lines 646-761): when the referenced
product no longer exists the sale row is still deleted with no stock
mutation (lines 695-697); otherwise the stock is restored through a
conditional update in the same transaction as the sale-row delete. -/
def delete_sale (db : DB) (uid sid : Nat) : OpResult Unit :=
  match findSale db uid sid with
  | none => ⟨.error .notFound, db, []⟩
  | some sale =>
    match findProductByName db uid sale.productName with
    | none =>
      ⟨.ok (), { db with
          sales := db.sales.filter fun t => !(t.id == sid && t.userId == uid) }, []⟩
    | some product =>
      if (condUpdateStock db.products product.id uid
          (product.stock + sale.quantity) product.version).2 == 0 then
        ⟨.error .versionConflict, db, [⟨true, some product.version⟩]⟩
      else
        ⟨.ok (), { db with
            products := (condUpdateStock db.products product.id uid
              (product.stock + sale.quantity) product.version).1,
            sales := db.sales.filter fun t => !(t.id == sid && t.userId == uid) },
         [⟨true, some product.version⟩]⟩

/-- Handler `create_product` (products.py lines 207-310): per-user name
uniqueness check, supplier validation (any provided id, including 0),
then `INSERT ... version = 1`. -/
def create_product (db : DB) (uid : Nat) (r : ProductCreate) : OpResult Product :=
  if db.products.any fun p => p.userId == uid && p.name == r.name then
    ⟨.error .duplicateName, db, []⟩
  else if (match r.supplierId with
           | some s => !supplierExists db uid s
           | none => false) then
    ⟨.error .invalidReference, db, []⟩
  else
    ⟨.ok ⟨db.nextProductId, uid, r.name, r.description, r.stock, r.unit, r.supplierId, 1⟩,
     { db with
         products := db.products ++
           [⟨db.nextProductId, uid, r.name, r.description, r.stock, r.unit, r.supplierId, 1⟩],
         nextProductId := db.nextProductId + 1 }, []⟩

/-- Name-uniqueness check of `update_product` (products.py lines 361-371),
with Python truthiness on `product_data.name`. -/
def productNameTaken (db : DB) (uid pid : Nat) (row : Product) (u : ProductUpdate) : Bool :=
  match u.name with
  | some n => n != "" && n != row.name &&
      (db.products.any fun p => p.userId == uid && p.name == n && p.id != pid)
  | none => false

/-- Supplier validation of `update_product` (products.py lines 373-384):
checked only when provided, different from the stored value and nonzero. -/
def productSupplierInvalid (db : DB) (uid : Nat) (row : Product) (u : ProductUpdate) : Bool :=
  match u.supplierId with
  | some s => !(some s == row.supplierId) && s != 0 && !supplierExists db uid s
  | none => false

/-- Whether the dynamic `UPDATE products SET ...` of `update_product` has
at least one field (products.py lines 386-414). -/
def ProductUpdate.hasFields (u : ProductUpdate) : Bool :=
  u.name.isSome || u.description.isSome || u.stock.isSome ||
  u.unit.isSome || u.supplierId.isSome

/-- The dynamic `UPDATE products SET ..., version = version + 1` of
`update_product` applied to one row (products.py lines 386-428);
`supplierId = 0` is stored as NULL (line 408). -/
def applyProductFields (u : ProductUpdate) (p : Product) : Product :=
  { p with
    name := u.name.getD p.name
    description := u.description.getD p.description
    stock := u.stock.getD p.stock
    unit := u.unit.getD p.unit
    supplierId := match u.supplierId with
      | some s => if s == 0 then none else some s
      | none => p.supplierId
    version := p.version + 1 }

/-- Python truthiness `row[7] if row[7] else 1` (products.py lines 352 and
573): a stored version of 0 (or NULL) is read back as 1. -/
def effVersion (v : Nat) : Nat := if v == 0 then 1 else v

/-- Handler `update_product` (products.py lines 313-471): the optimistic
check at line 355 compares a provided `version` against the stored one,
but the `UPDATE` itself (lines 423-428) is conditioned only on
`id = ? AND userId = ?` and always sets `version = version + 1`. A stored
version of 0 is read back as 1 (line 352). -/
def update_product (db : DB) (uid pid : Nat) (u : ProductUpdate) : OpResult Product :=
  match findProductById db uid pid with
  | none => ⟨.error .notFound, db, []⟩
  | some row =>
    if (match u.version with
        | some v => v != effVersion row.version
        | none => false) then
      ⟨.error .versionConflict, db, []⟩
    else if productNameTaken db uid pid row u then
      ⟨.error .duplicateName, db, []⟩
    else if productSupplierInvalid db uid row u then
      ⟨.error .invalidReference, db, []⟩
    else if !u.hasFields then
      ⟨.error .emptyUpdate, db, []⟩
    else
      ⟨.ok (applyProductFields u row),
       { db with products := db.products.map fun p =>
           if p.id == pid && p.userId == uid then applyProductFields u p else p },
       [⟨u.stock.isSome, none⟩]⟩

/-- Handler `delete_product` (products.py lines 474-528). -/
def delete_product (db : DB) (uid pid : Nat) : OpResult Unit :=
  match findProductById db uid pid with
  | none => ⟨.error .notFound, db, []⟩
  | some _ =>
    ⟨.ok (), { db with products := db.products.filter fun p => !(p.id == pid && p.userId == uid) },
     []⟩

/-- Handler `update_product_stock` (products.py lines 531-660), the
`adjustStock` operation: optimistic pre-check of the caller-supplied
version (line 576, a stored version of 0 reads as 1), non-negative
resulting stock (lines 586-590), then the conditional update; the
conflict re-check at line 603 compares `conn.total_changes` (threaded
here as `tc` plus the affected-row count) with 0. -/
def update_product_stock (db : DB) (uid pid tc : Nat) (r : ProductStockUpdate) :
    OpResult Product :=
  match findProductById db uid pid with
  | none => ⟨.error .notFound, db, []⟩
  | some row =>
    if r.version != effVersion row.version then
      ⟨.error .versionConflict, db, []⟩
    else if row.stock + r.quantity < 0 then
      ⟨.error .insufficientStock, db, []⟩
    else if tc + (condUpdateStock db.products pid uid
        (row.stock + r.quantity) (effVersion row.version)).2 == 0 then
      ⟨.error .versionConflict, db, [⟨true, some (effVersion row.version)⟩]⟩
    else
      ⟨.ok { row with stock := row.stock + r.quantity, version := row.version + 1 },
       { db with products := (condUpdateStock db.products pid uid
           (row.stock + r.quantity) (effVersion row.version)).1 },
       [⟨true, some (effVersion row.version)⟩]⟩


/-! ### Concrete databases for the per-claim evidence theorems -/

/-- Input for C1: user 1 owns product A (stock 5, already decremented by the
recorded sale) and product B (stock 10); sale 1 sold 5 units of A. -/
def dbC1 : DB :=
  { products := [⟨1, 1, "A", "", 5, "kg", none, 2⟩, ⟨2, 1, "B", "", 10, "kg", none, 1⟩],
    sales := [⟨1, 1, "A", 5, none, "2024-01-01", 100, ""⟩],
    customers := [], suppliers := [], nextProductId := 3, nextSaleId := 2 }

/-- Request for C1: re-point sale 1 at product B, quantity unchanged. -/
def reqC1 : SaleUpdate := ⟨some "B", none, none, none, none, none⟩

/-- C1: the claim fails on the code. A sale of quantity 5 on product A,
edited to reference product B with the new quantity equal to the old one,
succeeds and re-points the sale at B, but `quantity_diff = 0` makes
`update_sale` skip every stock statement (sales.py line 531): A's stock is
not restored, B's stock is not decreased, and no conditional update is
issued at all — against the claimed restore/decrease "regardless of
whether the new quantity equals the old quantity". -/
theorem claim_c1_cross_product_equal_qty_skips_stock :
    (update_sale dbC1 1 1 0 reqC1).result =
      .ok ⟨1, 1, "B", 5, none, "2024-01-01", 100, ""⟩ ∧
    (update_sale dbC1 1 1 0 reqC1).db.products = dbC1.products ∧
    (update_sale dbC1 1 1 0 reqC1).trace = [] :=
  ⟨rfl, rfl, rfl⟩

/-- Input for C2: user 7 owns products alpha (stock 9) and beta (stock 3);
sale 5 sold 2 units of alpha. -/
def dbC2 : DB :=
  { products := [⟨1, 7, "alpha", "", 9, "box", none, 4⟩, ⟨2, 7, "beta", "", 3, "box", none, 6⟩],
    sales := [⟨5, 7, "alpha", 2, none, "2024-02-02", 50, "n"⟩],
    customers := [], suppliers := [], nextProductId := 3, nextSaleId := 6 }

/-- Request for C2: re-point sale 5 at product beta, quantity unchanged. -/
def reqC2 : SaleUpdate := ⟨some "beta", none, none, none, none, none⟩

/-- C2: the claim fails on the code. An `update_sale` that changes the
sale's product name but not its quantity commits while issuing ZERO
version-conditioned product updates (the whole stock block is guarded by
`quantity_diff != 0`, sales.py line 531), not the claimed two; moreover
the old-product conflict re-check (line 562) tests `conn.total_changes`,
which already counts the sale-row update, so a zero-row restore could
never surface as `VersionConflict` anyway. -/
theorem claim_c2_name_change_issues_no_conditional_updates :
    (update_sale dbC2 7 5 0 reqC2).result =
      .ok ⟨5, 7, "beta", 2, none, "2024-02-02", 50, "n"⟩ ∧
    (update_sale dbC2 7 5 0 reqC2).trace = [] ∧
    (update_sale dbC2 7 5 0 reqC2).db.products = dbC2.products :=
  ⟨rfl, rfl, rfl⟩

/-- Input for C6: user 2 owns product gamma with stock 5 at version 3. -/
def dbC6 : DB :=
  { products := [⟨1, 2, "gamma", "", 5, "kg", none, 3⟩],
    sales := [], customers := [], suppliers := [], nextProductId := 2, nextSaleId := 1 }

/-- Request for C6: a general product update that sets `stock := 7` and
supplies the matching expected version 3. -/
def reqC6 : ProductUpdate := ⟨none, none, some 7, none, none, some 3⟩

/-- C6 counterexample: the claim as stated is false. `update_product` with
a supplied expected version mutates `stock` through a statement whose
predicate is only `id = ? AND userId = ?` — the issued statement sets
stock yet carries no version condition (products.py lines 423-428), so
not every stock mutation goes through a version-conditioned statement,
and the version-free write is not limited to non-stock fields. -/
theorem claim_c6_counterexample_stock_write_without_version_pred :
    (update_product dbC6 2 1 reqC6).result =
      .ok ⟨1, 2, "gamma", "", 7, "kg", none, 4⟩ ∧
    (update_product dbC6 2 1 reqC6).trace = [⟨true, none⟩] :=
  ⟨rfl, rfl⟩

/-! ### Basic facts about the lookup and update primitives -/

/-- A successful product-by-name lookup returns a member row of the
table, owned by the queried user and carrying the queried name. -/
theorem findProductByName_spec {db : DB} {uid : Nat} {nm : String} {p : Product}
    (h : findProductByName db uid nm = some p) :
    p ∈ db.products ∧ p.userId = uid ∧ p.name = nm := by
  unfold findProductByName at h
  have h1 := List.mem_of_find?_eq_some h
  have h2 := List.find?_some h
  simp only [Bool.and_eq_true, beq_iff_eq] at h2
  exact ⟨h1, h2.1, h2.2⟩

/-- A successful sale lookup returns a member row with the queried id and
owner. -/
theorem findSale_spec {db : DB} {uid sid : Nat} {s : Sale}
    (h : findSale db uid sid = some s) :
    s ∈ db.sales ∧ s.id = sid ∧ s.userId = uid := by
  unfold findSale at h
  have h1 := List.mem_of_find?_eq_some h
  have h2 := List.find?_some h
  simp only [Bool.and_eq_true, beq_iff_eq] at h2
  exact ⟨h1, h2.1, h2.2⟩

/-- The conditional update writes a nonnegative stock value into a table
whose stocks were all nonnegative, so they stay nonnegative. -/
theorem stockInv_condUpdate {ps : List Product} {pid uid : Nat} {ns : Int} {ev : Nat}
    (h : ∀ p ∈ ps, 0 ≤ p.stock) (hns : 0 ≤ ns) :
    ∀ q ∈ (condUpdateStock ps pid uid ns ev).1, 0 ≤ q.stock := by
  intro q hq
  unfold condUpdateStock at hq
  simp only [List.mem_map] at hq
  obtain ⟨p, hp, hfq⟩ := hq
  by_cases hc : (p.id == pid && p.userId == uid && p.version == ev) = true
  · rw [if_pos hc] at hfq
    subst hfq
    exact hns
  · rw [if_neg hc] at hfq
    subst hfq
    exact h p hp

/-- If a member row matches the conditional update's predicate, the
affected-row count is nonzero. -/
theorem condUpdateStock_count_ne_zero {ps : List Product} {pid uid : Nat} {ns : Int}
    {ev : Nat} {p : Product} (hp : p ∈ ps) (hid : p.id = pid) (huid : p.userId = uid)
    (hv : p.version = ev) :
    (condUpdateStock ps pid uid ns ev).2 ≠ 0 := by
  unfold condUpdateStock
  simp only
  intro hlen
  rw [List.length_eq_zero] at hlen
  have hmem : p ∈ ps.filter fun q => q.id == pid && q.userId == uid && q.version == ev :=
    List.mem_filter.mpr ⟨hp, by simp [hid, huid, hv]⟩
  rw [hlen] at hmem
  exact absurd hmem (List.not_mem_nil p)

/-- Every row of a conditionally updated table comes from a row of the
old table with the same id, either unchanged or with its version bumped
by exactly one (and then its id equal to the statement's target id). -/
theorem versionStep_condUpdate {ps : List Product} {pid uid : Nat} {ns : Int} {ev : Nat} :
    ∀ q ∈ (condUpdateStock ps pid uid ns ev).1,
      ∃ p ∈ ps, p.id = q.id ∧ (q = p ∨ (q.version = p.version + 1 ∧ q.id = pid)) := by
  intro q hq
  unfold condUpdateStock at hq
  simp only [List.mem_map] at hq
  obtain ⟨p, hp, hfq⟩ := hq
  by_cases hc : (p.id == pid && p.userId == uid && p.version == ev) = true
  · rw [if_pos hc] at hfq
    subst hfq
    simp only [Bool.and_eq_true, beq_iff_eq] at hc
    exact ⟨p, hp, rfl, Or.inr ⟨rfl, hc.1.1⟩⟩
  · rw [if_neg hc] at hfq
    subst hfq
    exact ⟨p, hp, rfl, Or.inl rfl⟩

/-- Two chained conditional updates that target different product ids
touch each row at most once: every final row descends from an original
row with the same id, unchanged or bumped by exactly one. -/
theorem versionStep_condUpdate₂ {ps : List Product} {pid1 uid1 : Nat} {ns1 : Int}
    {ev1 : Nat} {pid2 uid2 : Nat} {ns2 : Int} {ev2 : Nat} (hne : pid1 ≠ pid2) :
    ∀ q ∈ (condUpdateStock (condUpdateStock ps pid1 uid1 ns1 ev1).1 pid2 uid2 ns2 ev2).1,
      ∃ p ∈ ps, p.id = q.id ∧ (q = p ∨ q.version = p.version + 1) := by
  intro q hq
  obtain ⟨p1, hp1, hid1, hcase1⟩ := versionStep_condUpdate q hq
  obtain ⟨p0, hp0, hid0, hcase0⟩ := versionStep_condUpdate p1 hp1
  have hid : p0.id = q.id := hid0.trans hid1
  rcases hcase1 with h1 | ⟨hv1, hq2⟩
  · rcases hcase0 with h0 | ⟨hv0, _⟩
    · exact ⟨p0, hp0, hid, Or.inl (h1.trans h0)⟩
    · exact ⟨p0, hp0, hid, Or.inr (by rw [h1]; exact hv0)⟩
  · rcases hcase0 with h0 | ⟨_, hp2⟩
    · exact ⟨p0, hp0, hid, Or.inr (by rw [← h0]; exact hv1)⟩
    · exact absurd (hp2.symm.trans (hid1.trans hq2)) hne

/-- A product-by-name lookup commutes with a conditional stock update:
the update changes no row's owner or name, so the lookup finds the image
of the row it found before. -/
theorem find?_name_condUpdate (ps : List Product) (pid uid2 : Nat) (ns : Int) (ev : Nat)
    (uid : Nat) (nm : String) :
    ((condUpdateStock ps pid uid2 ns ev).1.find? fun p => p.userId == uid && p.name == nm) =
      (ps.find? fun p => p.userId == uid && p.name == nm).map fun p =>
        if p.id == pid && p.userId == uid2 && p.version == ev then
          { p with stock := ns, version := p.version + 1 }
        else p := by
  unfold condUpdateStock
  have hfun : ((fun p : Product => p.userId == uid && p.name == nm) ∘
      fun p : Product =>
        if p.id == pid && p.userId == uid2 && p.version == ev then
          { p with stock := ns, version := p.version + 1 }
        else p) =
      fun p : Product => p.userId == uid && p.name == nm := by
    funext p
    by_cases hc : (p.id == pid && p.userId == uid2 && p.version == ev) = true
    · simp [hc, Function.comp]
    · simp [hc, Function.comp]
  simp only [List.find?_map, hfun]

/-! ### Operations, request validation, invariants -/

/-- One inbound mutating request of the inventory core, with the caller's
user id and, where the handler reads it, the connection's prior
`total_changes` value `tc`. -/
inductive Op where
  | opCreateProduct (uid : Nat) (r : ProductCreate)
  | opUpdateProduct (uid pid : Nat) (u : ProductUpdate)
  | opDeleteProduct (uid pid : Nat)
  | opAdjustStock (uid pid tc : Nat) (r : ProductStockUpdate)
  | opCreateSale (uid : Nat) (r : SaleCreate)
  | opUpdateSale (uid sid tc : Nat) (u : SaleUpdate)
  | opDeleteSale (uid sid : Nat)
  deriving Repr

/-- The committed database state after one request. -/
def runOp (db : DB) : Op → DB
  | .opCreateProduct uid r => (create_product db uid r).db
  | .opUpdateProduct uid pid u => (update_product db uid pid u).db
  | .opDeleteProduct uid pid => (delete_product db uid pid).db
  | .opAdjustStock uid pid tc r => (update_product_stock db uid pid tc r).db
  | .opCreateSale uid r => (create_sale db uid r).db
  | .opUpdateSale uid sid tc u => (update_sale db uid sid tc u).db
  | .opDeleteSale uid sid => (delete_sale db uid sid).db

/-- The committed database state after a sequence of requests. -/
def runOps (db : DB) (ops : List Op) : DB := ops.foldl runOp db

/-- Modelled from the spec: the request validation performed by the
Pydantic models in `server/models.py`, which is not among the provided
sources. Spec section 3 fixes product `stock` as an integer ≥ 0 and sale
`quantity` as a positive integer, so a request carrying a product stock
below 0 or a sale quantity below 1 is rejected before the handler runs. -/
def ValidOp : Op → Prop
  | .opCreateProduct _ r => 0 ≤ r.stock
  | .opUpdateProduct _ _ u => 0 ≤ u.stock.getD 0
  | .opCreateSale _ r => 1 ≤ r.quantity
  | .opUpdateSale _ _ _ u => 1 ≤ u.quantity.getD 1
  | _ => True

/-- Spec section 8: for all products, at all times, `stock >= 0`. -/
def StockInv (db : DB) : Prop := ∀ p ∈ db.products, 0 ≤ p.stock

/-- Every committed sale row carries a positive quantity (spec section 3). -/
def QtyInv (db : DB) : Prop := ∀ s ∈ db.sales, 1 ≤ s.quantity

/-- The sale-row update of `update_sale` keeps all quantities positive
when a provided quantity is positive. -/
theorem qtyInv_salesMap {l : List Sale} {sid uid : Nat} {u : SaleUpdate}
    (hv : 1 ≤ u.quantity.getD 1)
    (hq : ∀ t ∈ l, 1 ≤ t.quantity) :
    ∀ t ∈ l.map fun t => if t.id == sid && t.userId == uid then applySaleFields u t else t,
      1 ≤ t.quantity := by
  intro t ht
  simp only [List.mem_map] at ht
  obtain ⟨t0, ht0, hft⟩ := ht
  by_cases hc : (t0.id == sid && t0.userId == uid) = true
  · rw [if_pos hc] at hft
    subst hft
    unfold applySaleFields
    cases hu : u.quantity with
    | some q =>
      rw [hu] at hv
      simp only [Option.getD_some] at hv
      simpa [hu] using hv
    | none => simpa [hu] using hq t0 ht0
  · rw [if_neg hc] at hft
    subst hft
    exact hq t0 ht0

/-- Invariant preservation for `create_product`. -/
theorem create_product_inv {db : DB} {uid : Nat} {r : ProductCreate} (hr : 0 ≤ r.stock)
    (hs : StockInv db) (hq : QtyInv db) :
    StockInv (create_product db uid r).db ∧ QtyInv (create_product db uid r).db := by
  unfold create_product
  split
  · exact ⟨hs, hq⟩
  · split
    · exact ⟨hs, hq⟩
    · refine ⟨?_, hq⟩
      intro p hp
      rcases List.mem_append.mp hp with h | h
      · exact hs p h
      · rcases List.mem_singleton.mp h with rfl
        exact hr

/-- Invariant preservation for `update_product`. -/
theorem update_product_inv {db : DB} {uid pid : Nat} {u : ProductUpdate}
    (hv : 0 ≤ u.stock.getD 0)
    (hs : StockInv db) (hq : QtyInv db) :
    StockInv (update_product db uid pid u).db ∧ QtyInv (update_product db uid pid u).db := by
  have hsucc : StockInv { db with products := db.products.map fun p =>
      if p.id == pid && p.userId == uid then applyProductFields u p else p } := by
    intro p hp
    simp only [List.mem_map] at hp
    obtain ⟨p0, hp0, hfp⟩ := hp
    by_cases hc : (p0.id == pid && p0.userId == uid) = true
    · rw [if_pos hc] at hfp
      subst hfp
      unfold applyProductFields
      cases hu : u.stock with
      | some v =>
        rw [hu] at hv
        simp only [Option.getD_some] at hv
        simpa [hu] using hv
      | none => simpa [hu] using hs p0 hp0
    · rw [if_neg hc] at hfp
      subst hfp
      exact hs p0 hp0
  unfold update_product
  cases hf : findProductById db uid pid with
  | none => exact ⟨hs, hq⟩
  | some row =>
    dsimp only
    repeat' split
    all_goals first
      | exact ⟨hs, hq⟩
      | exact ⟨hsucc, hq⟩

/-- Invariant preservation for `delete_product`. -/
theorem delete_product_inv {db : DB} {uid pid : Nat}
    (hs : StockInv db) (hq : QtyInv db) :
    StockInv (delete_product db uid pid).db ∧ QtyInv (delete_product db uid pid).db := by
  unfold delete_product
  cases hf : findProductById db uid pid with
  | none => exact ⟨hs, hq⟩
  | some row =>
    refine ⟨?_, hq⟩
    intro p hp
    exact hs p (List.mem_filter.mp hp).1

/-- Invariant preservation for `update_product_stock`. -/
theorem update_product_stock_inv {db : DB} {uid pid tc : Nat} {r : ProductStockUpdate}
    (hs : StockInv db) (hq : QtyInv db) :
    StockInv (update_product_stock db uid pid tc r).db ∧
    QtyInv (update_product_stock db uid pid tc r).db := by
  unfold update_product_stock
  cases hf : findProductById db uid pid with
  | none => exact ⟨hs, hq⟩
  | some row =>
    dsimp only
    repeat' split
    all_goals first
      | exact ⟨hs, hq⟩
      | (rename_i hstock _
         rw [not_lt] at hstock
         exact ⟨stockInv_condUpdate hs hstock, hq⟩)

/-- Invariant preservation for `create_sale`. -/
theorem create_sale_inv {db : DB} {uid : Nat} {r : SaleCreate} (hr : 1 ≤ r.quantity)
    (hs : StockInv db) (hq : QtyInv db) :
    StockInv (create_sale db uid r).db ∧ QtyInv (create_sale db uid r).db := by
  unfold create_sale
  cases hf : findProductByName db uid r.productName with
  | none => exact ⟨hs, hq⟩
  | some product =>
    dsimp only
    repeat' split
    all_goals first
      | exact ⟨hs, hq⟩
      | (rename_i hng _
         rw [not_lt] at hng
         refine ⟨stockInv_condUpdate hs hng, ?_⟩
         intro s hmem
         rcases List.mem_append.mp hmem with h | h
         · exact hq s h
         · rcases List.mem_singleton.mp h with rfl
           exact hr)

/-- Invariant preservation for `delete_sale`. -/
theorem delete_sale_inv {db : DB} {uid sid : Nat}
    (hs : StockInv db) (hq : QtyInv db) :
    StockInv (delete_sale db uid sid).db ∧ QtyInv (delete_sale db uid sid).db := by
  unfold delete_sale
  cases hfs : findSale db uid sid with
  | none => exact ⟨hs, hq⟩
  | some sale =>
    have hq1 : ∀ t ∈ db.sales.filter fun t => !(t.id == sid && t.userId == uid),
        1 ≤ t.quantity := fun t ht => hq t (List.mem_filter.mp ht).1
    dsimp only
    cases hfp : findProductByName db uid sale.productName with
    | none => exact ⟨hs, hq1⟩
    | some product =>
      have hps : 0 ≤ product.stock + sale.quantity := by
        have h1 := hs product (findProductByName_spec hfp).1
        have h2 := hq sale (findSale_spec hfs).1
        omega
      dsimp only
      split
      · exact ⟨hs, hq⟩
      · exact ⟨stockInv_condUpdate hs hps, hq1⟩

/-- Invariant preservation for the final conditional update of `update_sale`. -/
theorem updateSaleFinish_inv {db : DB} {uid sid : Nat} {u : SaleUpdate} {sale : Sale}
    {product : Product} {ps : List Product} {tr : List ProdStmt}
    (hv : 1 ≤ u.quantity.getD 1) (hs : StockInv db) (hq : QtyInv db)
    (hsps : ∀ p ∈ ps, 0 ≤ p.stock)
    (hng : 0 ≤ product.stock + (sale.quantity - saleNewQuantity sale u)) :
    StockInv (updateSaleFinish db uid sid u sale product ps tr).db ∧
    QtyInv (updateSaleFinish db uid sid u sale product ps tr).db := by
  unfold updateSaleFinish
  split
  · exact ⟨hs, hq⟩
  · exact ⟨stockInv_condUpdate hsps hng, qtyInv_salesMap hv hq⟩

/-- Invariant preservation for the cross-product branch of `update_sale`. -/
theorem updateSaleCross_inv {db : DB} {uid sid tc : Nat} {u : SaleUpdate} {sale : Sale}
    {product : Product}
    (hv : 1 ≤ u.quantity.getD 1) (hs : StockInv db) (hq : QtyInv db)
    (hqty : 1 ≤ sale.quantity)
    (hng : 0 ≤ product.stock + (sale.quantity - saleNewQuantity sale u)) :
    StockInv (updateSaleCross db uid sid tc u sale product).db ∧
    QtyInv (updateSaleCross db uid sid tc u sale product).db := by
  unfold updateSaleCross
  cases hfo : findProductByName db uid sale.productName with
  | none => exact updateSaleFinish_inv hv hs hq hs hng
  | some oldProduct =>
    have hns1 : 0 ≤ oldProduct.stock + sale.quantity := by
      have h1 := hs oldProduct (findProductByName_spec hfo).1
      omega
    dsimp only
    split
    · exact ⟨hs, hq⟩
    · exact updateSaleFinish_inv hv hs hq (stockInv_condUpdate hs hns1) hng

/-- Invariant preservation for the stock phase of `update_sale`. -/
theorem updateSaleStockPhase_inv {db : DB} {uid sid tc : Nat} {u : SaleUpdate} {sale : Sale}
    {product : Product}
    (hv : 1 ≤ u.quantity.getD 1) (hs : StockInv db) (hq : QtyInv db)
    (hqty : 1 ≤ sale.quantity) :
    StockInv (updateSaleStockPhase db uid sid tc u sale product).db ∧
    QtyInv (updateSaleStockPhase db uid sid tc u sale product).db := by
  unfold updateSaleStockPhase
  split
  · exact ⟨hs, qtyInv_salesMap hv hq⟩
  · split
    · exact ⟨hs, hq⟩
    · rename_i hng
      rw [not_lt] at hng
      split
      · exact updateSaleCross_inv hv hs hq hqty hng
      · exact updateSaleFinish_inv hv hs hq hs hng

/-- Invariant preservation for `update_sale`. -/
theorem update_sale_inv {db : DB} {uid sid tc : Nat} {u : SaleUpdate}
    (hv : 1 ≤ u.quantity.getD 1)
    (hs : StockInv db) (hq : QtyInv db) :
    StockInv (update_sale db uid sid tc u).db ∧ QtyInv (update_sale db uid sid tc u).db := by
  unfold update_sale
  cases hfs : findSale db uid sid with
  | none => exact ⟨hs, hq⟩
  | some sale =>
    dsimp only
    cases hfp : findProductByName db uid (saleLookupName sale u) with
    | none => exact ⟨hs, hq⟩
    | some product =>
      dsimp only
      have hqty : 1 ≤ sale.quantity := hq sale (findSale_spec hfs).1
      split
      · exact ⟨hs, hq⟩
      · split
        · exact ⟨hs, hq⟩
        · split
          · exact ⟨hs, hq⟩
          · exact updateSaleStockPhase_inv hv hs hq hqty

/-- Request validation is decidable, so witnesses can be checked by `decide`. -/
instance : DecidablePred ValidOp := fun op =>
  match op with
  | .opCreateProduct _ r => inferInstanceAs (Decidable (0 ≤ r.stock))
  | .opUpdateProduct _ _ u => inferInstanceAs (Decidable (0 ≤ u.stock.getD 0))
  | .opDeleteProduct _ _ => inferInstanceAs (Decidable True)
  | .opAdjustStock _ _ _ _ => inferInstanceAs (Decidable True)
  | .opCreateSale _ r => inferInstanceAs (Decidable (1 ≤ r.quantity))
  | .opUpdateSale _ _ _ u => inferInstanceAs (Decidable (1 ≤ u.quantity.getD 1))
  | .opDeleteSale _ _ => inferInstanceAs (Decidable True)

/-- The stock invariant is decidable on concrete states. -/
instance (db : DB) : Decidable (StockInv db) :=
  inferInstanceAs (Decidable (∀ p ∈ db.products, 0 ≤ p.stock))

/-- The quantity invariant is decidable on concrete states. -/
instance (db : DB) : Decidable (QtyInv db) :=
  inferInstanceAs (Decidable (∀ s ∈ db.sales, 1 ≤ s.quantity))

/-- C3: for every product reachable through the exposed operations
(`createSale`, `updateSale`, `deleteSale`, `adjustStock`, product
create/update/delete), the stored stock stays ≥ 0 at all times: starting
from a state whose stocks are all nonnegative and whose sale quantities
are all positive, any sequence of validated requests commits only states
with every stock ≥ 0 — each handler checks sufficiency and fails
`InsufficientStock` (rolling back any partial write) before committing a
write that would drive a stock negative. -/
theorem claim_c3_stock_always_nonneg (db : DB) (ops : List Op)
    (hv : ∀ op ∈ ops, ValidOp op) (hs : StockInv db) (hq : QtyInv db) :
    StockInv (runOps db ops) ∧ QtyInv (runOps db ops) := by
  induction ops generalizing db with
  | nil => exact ⟨hs, hq⟩
  | cons op ops ih =>
    have hstep : StockInv (runOp db op) ∧ QtyInv (runOp db op) := by
      have hvo := hv op (List.mem_cons_self op ops)
      cases op with
      | opCreateProduct uid r => exact create_product_inv hvo hs hq
      | opUpdateProduct uid pid uu => exact update_product_inv hvo hs hq
      | opDeleteProduct uid pid => exact delete_product_inv hs hq
      | opAdjustStock uid pid tc r => exact update_product_stock_inv hs hq
      | opCreateSale uid r => exact create_sale_inv hvo hs hq
      | opUpdateSale uid sid tc uu => exact update_sale_inv hvo hs hq
      | opDeleteSale uid sid => exact delete_sale_inv hs hq
    exact ih (runOp db op) (fun o ho => hv o (List.mem_cons_of_mem _ ho)) hstep.1 hstep.2

/-- Witness state for C3: one product with stock 4. -/
def dbC3 : DB :=
  { products := [⟨1, 1, "w3", "", 4, "kg", none, 1⟩],
    sales := [], customers := [], suppliers := [], nextProductId := 2, nextSaleId := 1 }

/-- Witness requests for C3: sell 3, delete the sale, adjust stock by -4. -/
def opsC3 : List Op :=
  [.opCreateSale 1 ⟨"w3", 3, none, "2024-01-05", 30, ""⟩,
   .opDeleteSale 1 1,
   .opAdjustStock 1 1 0 ⟨-4, 3⟩]

/-- Witness for C3 at a concrete state and request sequence. -/
theorem claim_c3_witness :
    (∀ op ∈ opsC3, ValidOp op) ∧ StockInv dbC3 ∧ QtyInv dbC3 ∧
    (StockInv (runOps dbC3 opsC3) ∧ QtyInv (runOps dbC3 opsC3)) :=
  ⟨by decide, by decide, by decide,
   claim_c3_stock_always_nonneg dbC3 opsC3 (by decide) (by decide) (by decide)⟩

/-- One request's effect on the product table, as claim C5 states it:
every resulting row either descends from a previous row with the same id
— identical (untouched) or with version advanced by exactly 1 (one
successful mutation) — or is a freshly created row with version 1 whose
id no previous row had. -/
def VersionStep (ps0 ps1 : List Product) : Prop :=
  ∀ q ∈ ps1, (∃ p ∈ ps0, p.id = q.id ∧ (q = p ∨ q.version = p.version + 1)) ∨
    (q.version = 1 ∧ ∀ p ∈ ps0, p.id ≠ q.id)

/-- An untouched table is a (trivial) version step. -/
theorem versionStep_refl (ps : List Product) : VersionStep ps ps :=
  fun q hq => Or.inl ⟨q, hq, rfl, Or.inl rfl⟩

/-- One conditional update is a version step. -/
theorem versionStep_single (ps : List Product) (pid uid : Nat) (ns : Int) (ev : Nat) :
    VersionStep ps (condUpdateStock ps pid uid ns ev).1 := fun q hq => by
  obtain ⟨p, hp, hid, hc⟩ := versionStep_condUpdate q hq
  exact Or.inl ⟨p, hp, hid, hc.imp id And.left⟩

/-- Two chained conditional updates on different product ids are a
version step. -/
theorem versionStep_double {ps : List Product} {pid1 uid1 : Nat} {ns1 : Int} {ev1 : Nat}
    {pid2 uid2 : Nat} {ns2 : Int} {ev2 : Nat} (hne : pid1 ≠ pid2) :
    VersionStep ps
      (condUpdateStock (condUpdateStock ps pid1 uid1 ns1 ev1).1 pid2 uid2 ns2 ev2).1 :=
  fun q hq => Or.inl (versionStep_condUpdate₂ hne q hq)

/-- The product table after `updateSaleFinish` is either unchanged (on
conflict rollback) or the conditional update of `ps`. -/
theorem updateSaleFinish_products (db : DB) (uid sid : Nat) (u : SaleUpdate) (sale : Sale)
    (product : Product) (ps : List Product) (tr : List ProdStmt) :
    (updateSaleFinish db uid sid u sale product ps tr).db.products = db.products ∨
    (updateSaleFinish db uid sid u sale product ps tr).db.products =
      (condUpdateStock ps product.id uid
        (product.stock + (sale.quantity - saleNewQuantity sale u)) product.version).1 := by
  unfold updateSaleFinish
  split
  · exact Or.inl rfl
  · exact Or.inr rfl

/-- The cross-product branch of `update_sale` performs a version step:
under unique product ids, the old and new product are different rows, so
neither is bumped twice. -/
theorem updateSaleCross_step {db : DB} {uid sid tc : Nat} {u : SaleUpdate} {sale : Sale}
    {product : Product}
    (hnd : (db.products.map Product.id).Nodup)
    (hmem : product ∈ db.products)
    (hname : product.name = saleLookupName sale u)
    (hnc : saleNameChanged sale u = true) :
    VersionStep db.products (updateSaleCross db uid sid tc u sale product).db.products := by
  unfold updateSaleCross
  cases hfo : findProductByName db uid sale.productName with
  | none =>
    show VersionStep db.products
      (updateSaleFinish db uid sid u sale product db.products []).db.products
    rcases updateSaleFinish_products db uid sid u sale product db.products [] with h | h <;>
      rw [h]
    · exact versionStep_refl _
    · exact versionStep_single _ _ _ _ _
  | some oldProduct =>
    dsimp only
    split
    · exact versionStep_refl _
    · have hne : oldProduct.id ≠ product.id := by
        have hspec := findProductByName_spec hfo
        intro h
        have heq := List.inj_on_of_nodup_map hnd hspec.1 hmem h
        have hpname : product.name = sale.productName := by
          rw [← heq]
          exact hspec.2.2
        unfold saleLookupName at hname
        rw [if_pos hnc] at hname
        unfold saleNameChanged at hnc
        cases hpn : u.productName with
        | none =>
          rw [hpn] at hnc
          simp at hnc
        | some pn =>
          rw [hpn] at hnc
          simp only [bne_iff_ne, ne_eq, Bool.and_eq_true, decide_eq_true_eq] at hnc
          rw [hpn] at hname
          simp only [Option.getD_some] at hname
          exact hnc.2 (by rw [← hname, hpname])
      rcases updateSaleFinish_products db uid sid u sale product
        (condUpdateStock db.products oldProduct.id uid
          (oldProduct.stock + sale.quantity) oldProduct.version).1
        [⟨true, some oldProduct.version⟩] with h | h <;> rw [h]
      · exact versionStep_refl _
      · exact versionStep_double hne

/-- The stock phase of `update_sale` performs a version step. -/
theorem updateSaleStockPhase_step {db : DB} {uid sid tc : Nat} {u : SaleUpdate} {sale : Sale}
    {product : Product}
    (hnd : (db.products.map Product.id).Nodup)
    (hmem : product ∈ db.products)
    (hname : product.name = saleLookupName sale u) :
    VersionStep db.products (updateSaleStockPhase db uid sid tc u sale product).db.products := by
  unfold updateSaleStockPhase
  split
  · exact versionStep_refl _
  · split
    · exact versionStep_refl _
    · split
      · rename_i hnc
        exact updateSaleCross_step hnd hmem hname hnc
      · show VersionStep db.products
          (updateSaleFinish db uid sid u sale product db.products []).db.products
        rcases updateSaleFinish_products db uid sid u sale product db.products [] with h | h <;>
          rw [h]
        · exact versionStep_refl _
        · exact versionStep_single _ _ _ _ _

/-- `update_sale` performs a version step on the product table. -/
theorem update_sale_step {db : DB} {uid sid tc : Nat} {u : SaleUpdate}
    (hnd : (db.products.map Product.id).Nodup) :
    VersionStep db.products (update_sale db uid sid tc u).db.products := by
  unfold update_sale
  cases hfs : findSale db uid sid with
  | none => exact versionStep_refl _
  | some sale =>
    dsimp only
    cases hfp : findProductByName db uid (saleLookupName sale u) with
    | none => exact versionStep_refl _
    | some product =>
      dsimp only
      have hspec := findProductByName_spec hfp
      split
      · exact versionStep_refl _
      · split
        · exact versionStep_refl _
        · split
          · exact versionStep_refl _
          · exact updateSaleStockPhase_step hnd hspec.1 hspec.2.2

/-- C5: per-request version discipline. Products are created with
version 1 (a fresh id no existing row had) and every successful mutation
of a product row — stock adjustment, sale-linked stock change, general
field update — advances its version by exactly 1, while untouched rows
are returned identical: so after N successful mutations a product's
version is exactly 1 + N, with no gaps and no reuse. -/
theorem claim_c5_version_one_plus_mutations (db : DB) (op : Op)
    (hnd : (db.products.map Product.id).Nodup)
    (hfresh : ∀ p ∈ db.products, p.id < db.nextProductId) :
    VersionStep db.products (runOp db op).products := by
  cases op with
  | opCreateProduct uid r =>
    simp only [runOp]
    unfold create_product
    split
    · exact versionStep_refl _
    · split
      · exact versionStep_refl _
      · intro q hq
        rcases List.mem_append.mp hq with h | h
        · exact Or.inl ⟨q, h, rfl, Or.inl rfl⟩
        · rcases List.mem_singleton.mp h with rfl
          exact Or.inr ⟨rfl, fun p hp => Nat.ne_of_lt (hfresh p hp)⟩
  | opUpdateProduct uid pid uu =>
    simp only [runOp]
    unfold update_product
    cases hf : findProductById db uid pid with
    | none => exact versionStep_refl _
    | some row =>
      dsimp only
      repeat' split
      all_goals first
        | exact versionStep_refl _
        | (intro q hq
           simp only [List.mem_map] at hq
           obtain ⟨p0, hp0, hfq⟩ := hq
           by_cases hc : (p0.id == pid && p0.userId == uid) = true
           · rw [if_pos hc] at hfq
             subst hfq
             exact Or.inl ⟨p0, hp0, rfl, Or.inr rfl⟩
           · rw [if_neg hc] at hfq
             subst hfq
             exact Or.inl ⟨p0, hp0, rfl, Or.inl rfl⟩)
  | opDeleteProduct uid pid =>
    simp only [runOp]
    unfold delete_product
    cases hf : findProductById db uid pid with
    | none => exact versionStep_refl _
    | some row =>
      exact fun q hq => Or.inl ⟨q, (List.mem_filter.mp hq).1, rfl, Or.inl rfl⟩
  | opAdjustStock uid pid tc r =>
    simp only [runOp]
    unfold update_product_stock
    cases hf : findProductById db uid pid with
    | none => exact versionStep_refl _
    | some row =>
      dsimp only
      repeat' split
      all_goals first
        | exact versionStep_refl _
        | exact versionStep_single _ _ _ _ _
  | opCreateSale uid r =>
    simp only [runOp]
    unfold create_sale
    cases hf : findProductByName db uid r.productName with
    | none => exact versionStep_refl _
    | some product =>
      dsimp only
      repeat' split
      all_goals first
        | exact versionStep_refl _
        | exact versionStep_single _ _ _ _ _
  | opDeleteSale uid sid =>
    simp only [runOp]
    unfold delete_sale
    cases hfs : findSale db uid sid with
    | none => exact versionStep_refl _
    | some sale =>
      dsimp only
      cases hfp : findProductByName db uid sale.productName with
      | none => exact versionStep_refl _
      | some product =>
        dsimp only
        split
        · exact versionStep_refl _
        · exact versionStep_single _ _ _ _ _
  | opUpdateSale uid sid tc uu =>
    simp only [runOp]
    exact update_sale_step hnd

/-- Witness state for C5: one product with id 1 at version 3. -/
def dbC5 : DB :=
  { products := [⟨1, 4, "w5", "", 6, "kg", none, 3⟩],
    sales := [], customers := [], suppliers := [], nextProductId := 2, nextSaleId := 1 }

/-- Witness request for C5: adjust stock by +2 at the observed version. -/
def opC5 : Op := .opAdjustStock 4 1 0 ⟨2, 3⟩

/-- Witness for C5 at a concrete state and request. -/
theorem claim_c5_witness :
    (dbC5.products.map Product.id).Nodup ∧
    (∀ p ∈ dbC5.products, p.id < dbC5.nextProductId) ∧
    VersionStep dbC5.products (runOp dbC5 opC5).products :=
  ⟨by decide, by decide,
   claim_c5_version_one_plus_mutations dbC5 opC5 (by decide) (by decide)⟩

/-- C4: if `create_sale` fails `InsufficientStock` — the referenced
product exists and its stock is below the requested quantity — the call
returns the database unchanged: no sale row exists for the request and
the product's stock and version are exactly their values from before the
call (the sufficiency check precedes every write, and any partial write
would be rolled back). -/
theorem claim_c4_insufficient_stock_atomic (db : DB) (uid : Nat) (r : SaleCreate)
    (p : Product) (hp : findProductByName db uid r.productName = some p)
    (hs : p.stock < r.quantity) :
    create_sale db uid r = ⟨.error .insufficientStock, db, []⟩ := by
  unfold create_sale
  simp only [hp]
  rw [if_pos hs]

/-- Witness state for C4: product with stock 2. -/
def dbC4 : DB :=
  { products := [⟨1, 3, "w4", "", 2, "kg", none, 1⟩],
    sales := [], customers := [], suppliers := [], nextProductId := 2, nextSaleId := 1 }

/-- Witness request for C4: sell 5 units with only 2 in stock. -/
def reqC4 : SaleCreate := ⟨"w4", 5, none, "2024-03-03", 10, ""⟩

/-- Witness for C4 at a concrete state and request. -/
theorem claim_c4_witness :
    findProductByName dbC4 3 reqC4.productName = some ⟨1, 3, "w4", "", 2, "kg", none, 1⟩ ∧
    (⟨1, 3, "w4", "", 2, "kg", none, 1⟩ : Product).stock < reqC4.quantity ∧
    create_sale dbC4 3 reqC4 = ⟨.error .insufficientStock, dbC4, []⟩ :=
  ⟨rfl, by decide,
   claim_c4_insufficient_stock_atomic dbC4 3 reqC4 ⟨1, 3, "w4", "", 2, "kg", none, 1⟩
     rfl (by decide)⟩

/-- C8: a mutation invoked with an entity id that exists but belongs to a
different user yields `NotFound` — never `VersionConflict`, never
success — and leaves the database unchanged, for all five mutating
operations (`updateSale`, `deleteSale`, product update, product delete,
`adjustStock`): every one of their lookups filters by
`id = ? AND userId = ?`. -/
theorem claim_c8_wrong_owner_not_found (db : DB) (uid sid pid tc : Nat)
    (su : SaleUpdate) (pu : ProductUpdate) (pr : ProductStockUpdate)
    (hsx : ∃ s ∈ db.sales, s.id = sid) (hpx : ∃ p ∈ db.products, p.id = pid)
    (hso : ∀ s ∈ db.sales, s.id = sid → s.userId ≠ uid)
    (hpo : ∀ p ∈ db.products, p.id = pid → p.userId ≠ uid) :
    update_sale db uid sid tc su = ⟨.error .notFound, db, []⟩ ∧
    delete_sale db uid sid = ⟨.error .notFound, db, []⟩ ∧
    update_product db uid pid pu = ⟨.error .notFound, db, []⟩ ∧
    delete_product db uid pid = ⟨.error .notFound, db, []⟩ ∧
    update_product_stock db uid pid tc pr = ⟨.error .notFound, db, []⟩ := by
  have hfs : findSale db uid sid = none := by
    unfold findSale
    rw [List.find?_eq_none]
    intro s hsmem
    simp only [Bool.and_eq_true, beq_iff_eq, not_and]
    intro h1 h2
    exact hso s hsmem h1 h2
  have hfp : findProductById db uid pid = none := by
    unfold findProductById
    rw [List.find?_eq_none]
    intro p hpmem
    simp only [Bool.and_eq_true, beq_iff_eq, not_and]
    intro h1 h2
    exact hpo p hpmem h1 h2
  refine ⟨?_, ?_, ?_, ?_, ?_⟩
  · unfold update_sale
    rw [hfs]
  · unfold delete_sale
    rw [hfs]
  · unfold update_product
    rw [hfp]
  · unfold delete_product
    rw [hfp]
  · unfold update_product_stock
    rw [hfp]

/-- Witness state for C8: sale 1 and product 1 both owned by user 2. -/
def dbC8 : DB :=
  { products := [⟨1, 2, "w8", "", 5, "kg", none, 1⟩],
    sales := [⟨1, 2, "w8", 2, none, "2024-04-04", 10, ""⟩],
    customers := [], suppliers := [], nextProductId := 2, nextSaleId := 2 }

/-- Witness for C8: user 1 mutating user 2's entities gets `NotFound`. -/
theorem claim_c8_witness :
    (∃ s ∈ dbC8.sales, s.id = 1) ∧ (∃ p ∈ dbC8.products, p.id = 1) ∧
    (∀ s ∈ dbC8.sales, s.id = 1 → s.userId ≠ 1) ∧
    (∀ p ∈ dbC8.products, p.id = 1 → p.userId ≠ 1) ∧
    (update_sale dbC8 1 1 0 ⟨none, some 3, none, none, none, none⟩ =
        ⟨.error .notFound, dbC8, []⟩ ∧
      delete_sale dbC8 1 1 = ⟨.error .notFound, dbC8, []⟩ ∧
      update_product dbC8 1 1 ⟨none, none, some 9, none, none, none⟩ =
        ⟨.error .notFound, dbC8, []⟩ ∧
      delete_product dbC8 1 1 = ⟨.error .notFound, dbC8, []⟩ ∧
      update_product_stock dbC8 1 1 0 ⟨1, 1⟩ = ⟨.error .notFound, dbC8, []⟩) :=
  ⟨by decide, by decide, by decide, by decide,
   claim_c8_wrong_owner_not_found dbC8 1 1 1 0
     ⟨none, some 3, none, none, none, none⟩ ⟨none, none, some 9, none, none, none⟩ ⟨1, 1⟩
     (by decide) (by decide) (by decide) (by decide)⟩

/-- C9: when the sale's referenced product (looked up by owner and name)
no longer exists, `delete_sale` still deletes the sale row, mutates no
product stock, and succeeds; when the product exists, the sale row is
deleted and the product's stock is restored by the sale's quantity (with
one version bump) in the same atomic unit. -/
theorem claim_c9_delete_sale_orphan_tolerant (db : DB) (uid sid : Nat) (s : Sale)
    (hs : findSale db uid sid = some s) :
    (findProductByName db uid s.productName = none →
      delete_sale db uid sid =
        ⟨.ok (), { db with
            sales := db.sales.filter fun t => !(t.id == sid && t.userId == uid) }, []⟩) ∧
    (∀ p, findProductByName db uid s.productName = some p →
      (delete_sale db uid sid).result = .ok () ∧
      findSale (delete_sale db uid sid).db uid sid = none ∧
      ∃ p2 ∈ (delete_sale db uid sid).db.products,
        p2.id = p.id ∧ p2.stock = p.stock + s.quantity ∧ p2.version = p.version + 1) := by
  constructor
  · intro hnone
    unfold delete_sale
    simp only [hs, hnone]
  · intro p hp
    have hspec := findProductByName_spec hp
    have hcnt : (condUpdateStock db.products p.id uid
        (p.stock + s.quantity) p.version).2 ≠ 0 :=
      condUpdateStock_count_ne_zero hspec.1 rfl hspec.2.1 rfl
    have hdel : delete_sale db uid sid =
        ⟨.ok (), { db with
            products := (condUpdateStock db.products p.id uid
              (p.stock + s.quantity) p.version).1,
            sales := db.sales.filter fun t => !(t.id == sid && t.userId == uid) },
         [⟨true, some p.version⟩]⟩ := by
      unfold delete_sale
      simp only [hs, hp]
      rw [if_neg (by simpa using hcnt)]
    rw [hdel]
    refine ⟨rfl, ?_, ?_⟩
    · unfold findSale
      rw [List.find?_eq_none]
      intro t ht
      have hmem := (List.mem_filter.mp ht).2
      exact fun hcontra => by simp [hcontra] at hmem
    · refine ⟨{ p with stock := p.stock + s.quantity, version := p.version + 1 },
        ?_, rfl, rfl, rfl⟩
      exact List.mem_map.mpr ⟨p, hspec.1, by simp [hspec.2.1]⟩

/-- Witness state for C9: sale 1 of 2 units of product w9 owned by user 5. -/
def dbC9 : DB :=
  { products := [⟨1, 5, "w9", "", 3, "kg", none, 2⟩],
    sales := [⟨1, 5, "w9", 2, none, "2024-05-05", 20, ""⟩],
    customers := [], suppliers := [], nextProductId := 2, nextSaleId := 2 }

/-- The witness sale row for C9. -/
def sC9 : Sale := ⟨1, 5, "w9", 2, none, "2024-05-05", 20, ""⟩

/-- Witness for C9 at a concrete state. -/
theorem claim_c9_witness :
    findSale dbC9 5 1 = some sC9 ∧
    ((findProductByName dbC9 5 sC9.productName = none →
        delete_sale dbC9 5 1 =
          ⟨.ok (), { dbC9 with
              sales := dbC9.sales.filter fun t => !(t.id == 1 && t.userId == 5) }, []⟩) ∧
     (∀ p, findProductByName dbC9 5 sC9.productName = some p →
        (delete_sale dbC9 5 1).result = .ok () ∧
        findSale (delete_sale dbC9 5 1).db 5 1 = none ∧
        ∃ p2 ∈ (delete_sale dbC9 5 1).db.products,
          p2.id = p.id ∧ p2.stock = p.stock + sC9.quantity ∧ p2.version = p.version + 1)) :=
  ⟨rfl, claim_c9_delete_sale_orphan_tolerant dbC9 5 1 sC9 rfl⟩

/-- C7: for a sale created with quantity `q` on an existing product with
sufficient stock, `createSale` followed by `deleteSale` of that sale
(with no interleaved operations) leaves the product's stock exactly at
its value from before the `createSale` (its version advances by 2, one
per mutation). -/
theorem claim_c7_create_delete_roundtrip (db : DB) (uid : Nat) (r : SaleCreate)
    (p : Product)
    (hp : findProductByName db uid r.productName = some p)
    (hqty : ¬ p.stock < r.quantity)
    (hc : saleCreateCustomerInvalid db uid r = false)
    (hfresh : ∀ s ∈ db.sales, s.id ≠ db.nextSaleId) :
    (create_sale db uid r).result =
      .ok ⟨db.nextSaleId, uid, r.productName, r.quantity, r.customerId,
           r.saleDate, r.totalSalePrice, r.note⟩ ∧
    (delete_sale (create_sale db uid r).db uid db.nextSaleId).result = .ok () ∧
    ∃ p2, findProductByName (delete_sale (create_sale db uid r).db uid db.nextSaleId).db
            uid r.productName = some p2 ∧ p2.stock = p.stock := by
  have hspec := findProductByName_spec hp
  have hcreate : create_sale db uid r =
      ⟨.ok ⟨db.nextSaleId, uid, r.productName, r.quantity, r.customerId,
            r.saleDate, r.totalSalePrice, r.note⟩,
       { db with
           products := (condUpdateStock db.products p.id uid
             (p.stock - r.quantity) p.version).1,
           sales := db.sales ++
             [⟨db.nextSaleId, uid, r.productName, r.quantity, r.customerId,
               r.saleDate, r.totalSalePrice, r.note⟩],
           nextSaleId := db.nextSaleId + 1 },
       [⟨true, some p.version⟩]⟩ := by
    unfold create_sale
    simp only [hp]
    rw [if_neg hqty, if_neg (by simp [hc]), if_neg (by omega),
        if_neg (by simpa using condUpdateStock_count_ne_zero hspec.1 rfl hspec.2.1 rfl)]
  rw [hcreate]
  refine ⟨rfl, ?_⟩
  dsimp only
  have hp1 : findProductByName
      { db with
          products := (condUpdateStock db.products p.id uid
            (p.stock - r.quantity) p.version).1,
          sales := db.sales ++
            [⟨db.nextSaleId, uid, r.productName, r.quantity, r.customerId,
              r.saleDate, r.totalSalePrice, r.note⟩],
          nextSaleId := db.nextSaleId + 1 } uid r.productName =
      some { p with stock := p.stock - r.quantity, version := p.version + 1 } := by
    show ((condUpdateStock db.products p.id uid
        (p.stock - r.quantity) p.version).1.find?
        fun q => q.userId == uid && q.name == r.productName) = _
    rw [find?_name_condUpdate,
      show (db.products.find? fun q => q.userId == uid && q.name == r.productName) =
        some p from hp]
    simp [hspec.2.1]
  have hfind2 : findSale
      { db with
          products := (condUpdateStock db.products p.id uid
            (p.stock - r.quantity) p.version).1,
          sales := db.sales ++
            [⟨db.nextSaleId, uid, r.productName, r.quantity, r.customerId,
              r.saleDate, r.totalSalePrice, r.note⟩],
          nextSaleId := db.nextSaleId + 1 } uid db.nextSaleId =
      some ⟨db.nextSaleId, uid, r.productName, r.quantity, r.customerId,
            r.saleDate, r.totalSalePrice, r.note⟩ := by
    unfold findSale
    rw [List.find?_append]
    have h1 : db.sales.find?
        (fun s => s.id == db.nextSaleId && s.userId == uid) = none := by
      rw [List.find?_eq_none]
      intro s hsmem
      simp only [Bool.and_eq_true, beq_iff_eq, not_and]
      intro h1
      exact absurd h1 (hfresh s hsmem)
    rw [h1]
    simp [List.find?]
  have hspec1 := findProductByName_spec hp1
  have hcnt2 : (condUpdateStock
      (condUpdateStock db.products p.id uid (p.stock - r.quantity) p.version).1
      p.id uid ((p.stock - r.quantity) + r.quantity) (p.version + 1)).2 ≠ 0 :=
    condUpdateStock_count_ne_zero hspec1.1 rfl hspec1.2.1 rfl
  have hdel : delete_sale
      { db with
          products := (condUpdateStock db.products p.id uid
            (p.stock - r.quantity) p.version).1,
          sales := db.sales ++
            [⟨db.nextSaleId, uid, r.productName, r.quantity, r.customerId,
              r.saleDate, r.totalSalePrice, r.note⟩],
          nextSaleId := db.nextSaleId + 1 } uid db.nextSaleId =
      ⟨.ok (),
       { db with
           products := (condUpdateStock
             (condUpdateStock db.products p.id uid
               (p.stock - r.quantity) p.version).1
             p.id uid ((p.stock - r.quantity) + r.quantity) (p.version + 1)).1,
           sales := (db.sales ++
             [(⟨db.nextSaleId, uid, r.productName, r.quantity, r.customerId,
                r.saleDate, r.totalSalePrice, r.note⟩ : Sale)]).filter
             fun t => !(t.id == db.nextSaleId && t.userId == uid),
           nextSaleId := db.nextSaleId + 1 },
       [⟨true, some (p.version + 1)⟩]⟩ := by
    unfold delete_sale
    simp only [hfind2, hp1]
    rw [if_neg (by simpa using hcnt2)]
  rw [hdel]
  refine ⟨rfl, ?_⟩
  dsimp only
  refine ⟨{ p with stock := (p.stock - r.quantity) + r.quantity, version := p.version + 2 },
    ?_, by dsimp only; omega⟩
  show ((condUpdateStock
      (condUpdateStock db.products p.id uid (p.stock - r.quantity) p.version).1
      p.id uid ((p.stock - r.quantity) + r.quantity) (p.version + 1)).1.find?
      fun q => q.userId == uid && q.name == r.productName) = _
  rw [find?_name_condUpdate,
    show ((condUpdateStock db.products p.id uid
        (p.stock - r.quantity) p.version).1.find?
        fun q => q.userId == uid && q.name == r.productName) =
      some { p with stock := p.stock - r.quantity, version := p.version + 1 } from hp1]
  simp [hspec.2.1]

/-- Witness state for C7: product w7 with stock 9 at version 4. -/
def dbC7 : DB :=
  { products := [⟨1, 6, "w7", "", 9, "kg", none, 4⟩],
    sales := [], customers := [], suppliers := [], nextProductId := 2, nextSaleId := 1 }

/-- Witness request for C7: sell 5 of the 9 units. -/
def reqC7 : SaleCreate := ⟨"w7", 5, none, "2024-06-06", 50, ""⟩

/-- Witness for C7 at a concrete state and request. -/
theorem claim_c7_witness :
    findProductByName dbC7 6 reqC7.productName = some ⟨1, 6, "w7", "", 9, "kg", none, 4⟩ ∧
    ¬ (⟨1, 6, "w7", "", 9, "kg", none, 4⟩ : Product).stock < reqC7.quantity ∧
    saleCreateCustomerInvalid dbC7 6 reqC7 = false ∧
    (∀ s ∈ dbC7.sales, s.id ≠ dbC7.nextSaleId) ∧
    ((create_sale dbC7 6 reqC7).result =
        .ok ⟨dbC7.nextSaleId, 6, reqC7.productName, reqC7.quantity, reqC7.customerId,
             reqC7.saleDate, reqC7.totalSalePrice, reqC7.note⟩ ∧
     (delete_sale (create_sale dbC7 6 reqC7).db 6 dbC7.nextSaleId).result = .ok () ∧
     ∃ p2, findProductByName (delete_sale (create_sale dbC7 6 reqC7).db 6 dbC7.nextSaleId).db
             6 reqC7.productName = some p2 ∧
           p2.stock = (⟨1, 6, "w7", "", 9, "kg", none, 4⟩ : Product).stock) :=
  ⟨rfl, by decide, rfl, by decide,
   claim_c7_create_delete_roundtrip dbC7 6 reqC7 ⟨1, 6, "w7", "", 9, "kg", none, 4⟩
     rfl (by decide) rfl (by decide)⟩

/-- A successful `updateSaleFinish` returns the updated sale row and has
committed exactly the mapped sale table. -/
theorem updateSaleFinish_ok_char {db : DB} {uid sid : Nat} {u : SaleUpdate} {sale : Sale}
    {product : Product} {ps : List Product} {tr : List ProdStmt} {s2 : Sale}
    (h : (updateSaleFinish db uid sid u sale product ps tr).result = .ok s2) :
    s2 = applySaleFields u sale ∧
    (updateSaleFinish db uid sid u sale product ps tr).db.sales =
      saleRowsUpdated db uid sid u := by
  unfold updateSaleFinish at h ⊢
  split at h
  · simp at h
  · rename_i hcond
    rw [if_neg hcond]
    simp only [Except.ok.injEq] at h
    exact ⟨h.symm, rfl⟩

/-- A successful `updateSaleCross` returns the updated sale row and has
committed exactly the mapped sale table. -/
theorem updateSaleCross_ok_char {db : DB} {uid sid tc : Nat} {u : SaleUpdate} {sale : Sale}
    {product : Product} {s2 : Sale}
    (h : (updateSaleCross db uid sid tc u sale product).result = .ok s2) :
    s2 = applySaleFields u sale ∧
    (updateSaleCross db uid sid tc u sale product).db.sales =
      saleRowsUpdated db uid sid u := by
  unfold updateSaleCross at h ⊢
  split at h
  · split at h
    · simp at h
    · rename_i hcond
      rw [if_neg hcond]
      exact updateSaleFinish_ok_char h
  · exact updateSaleFinish_ok_char h

/-- A successful `updateSaleStockPhase` returns the updated sale row and
has committed exactly the mapped sale table. -/
theorem updateSaleStockPhase_ok_char {db : DB} {uid sid tc : Nat} {u : SaleUpdate}
    {sale : Sale} {product : Product} {s2 : Sale}
    (h : (updateSaleStockPhase db uid sid tc u sale product).result = .ok s2) :
    s2 = applySaleFields u sale ∧
    (updateSaleStockPhase db uid sid tc u sale product).db.sales =
      saleRowsUpdated db uid sid u := by
  unfold updateSaleStockPhase at h ⊢
  split at h
  · rename_i hcond
    rw [if_pos hcond]
    simp only [Except.ok.injEq] at h
    exact ⟨h.symm, rfl⟩
  · rename_i hcond
    rw [if_neg hcond]
    split at h
    · simp at h
    · rename_i hcond2
      rw [if_neg hcond2]
      split at h
      · rename_i hcond3
        rw [if_pos hcond3]
        exact updateSaleCross_ok_char h
      · rename_i hcond3
        rw [if_neg hcond3]
        exact updateSaleFinish_ok_char h

/-- A successful `update_sale` found the sale row, returns its updated
form, and has committed exactly the mapped sale table. -/
theorem update_sale_ok_char {db : DB} {uid sid tc : Nat} {u : SaleUpdate} {s2 : Sale}
    (h : (update_sale db uid sid tc u).result = .ok s2) :
    ∃ sale, findSale db uid sid = some sale ∧ s2 = applySaleFields u sale ∧
      (update_sale db uid sid tc u).db.sales = saleRowsUpdated db uid sid u := by
  unfold update_sale at h ⊢
  split at h
  · simp at h
  · rename_i sale hfs
    split at h
    · simp at h
    · split at h
      · simp at h
      · rename_i hcond
        rw [if_neg hcond]
        split at h
        · simp at h
        · rename_i hcond2
          rw [if_neg hcond2]
          split at h
          · simp at h
          · rename_i hcond3
            rw [if_neg hcond3]
            obtain ⟨h1, h2⟩ := updateSaleStockPhase_ok_char h
            exact ⟨sale, hfs, h1, h2⟩

/-- With `customerId = 0`, the sale-row update stores NULL for every
matched row. -/
theorem saleRowsUpdated_customer_cleared {db : DB} {uid sid : Nat} {u : SaleUpdate}
    (h0 : u.customerId = some 0) :
    ∀ t ∈ saleRowsUpdated db uid sid u, t.id = sid → t.userId = uid →
      t.customerId = none := by
  intro t ht h1 h2
  unfold saleRowsUpdated at ht
  simp only [List.mem_map] at ht
  obtain ⟨t0, ht0, hft⟩ := ht
  by_cases hc : (t0.id == sid && t0.userId == uid) = true
  · rw [if_pos hc] at hft
    subst hft
    simp [applySaleFields, h0]
  · rw [if_neg hc] at hft
    subst hft
    exact absurd (by simp [h1, h2]) hc

/-- C10: in `update_sale`, `customerId = 0` is a sentinel: the customer
validation (sales.py lines 470-481, embodied by `saleCustomerInvalid`)
never fails on it — for every database state, so no existence check is
performed — and on success the sale's customer reference is stored as
NULL (sales.py line 503); whereas a nonzero `customerId` that does not
reference an existing customer of the caller fails with the
invalid-reference error before any write, leaving the database unchanged. -/
theorem claim_c10_customer_zero_sentinel (db : DB) (uid sid tc : Nat) (u v : SaleUpdate)
    (s : Sale) (p : Product) (c : Nat)
    (h0 : u.customerId = some 0)
    (hvc : v.customerId = some c) (hc0 : c ≠ 0) (hcex : customerExists db uid c = false)
    (hs : findSale db uid sid = some s)
    (hp : findProductByName db uid (saleLookupName s v) = some p)
    (hsuff : ¬ (saleNewQuantity s v > s.quantity ∧
      p.stock < saleNewQuantity s v - s.quantity)) :
    (∀ d : DB, saleCustomerInvalid d uid u = false) ∧
    (∀ s2, (update_sale db uid sid tc u).result = .ok s2 → s2.customerId = none) ∧
    (∀ s2, (update_sale db uid sid tc u).result = .ok s2 →
        ∀ t ∈ (update_sale db uid sid tc u).db.sales,
          t.id = sid → t.userId = uid → t.customerId = none) ∧
    update_sale db uid sid tc v = ⟨.error .invalidReference, db, []⟩ := by
  refine ⟨?_, ?_, ?_, ?_⟩
  · intro d
    unfold saleCustomerInvalid
    rw [h0]
    simp
  · intro s2 hok
    obtain ⟨sale, hfs, hsale, hsales⟩ := update_sale_ok_char hok
    rw [hsale]
    simp [applySaleFields, h0]
  · intro s2 hok
    obtain ⟨sale, hfs, hsale, hsales⟩ := update_sale_ok_char hok
    rw [hsales]
    exact saleRowsUpdated_customer_cleared h0
  · have hinv : saleCustomerInvalid db uid v = true := by
      unfold saleCustomerInvalid
      rw [hvc]
      simp [hc0, hcex]
    unfold update_sale
    simp only [hs]
    simp only [hp]
    rw [if_neg hsuff, if_pos hinv]

/-- Witness state for C10: sale 1 of user 8 currently references customer
9; the customers table is empty. -/
def dbC10 : DB :=
  { products := [⟨1, 8, "wx", "", 4, "kg", none, 1⟩],
    sales := [⟨1, 8, "wx", 2, some 9, "2024-07-07", 20, ""⟩],
    customers := [], suppliers := [], nextProductId := 2, nextSaleId := 2 }

/-- Witness request for C10: clear the customer with the 0 sentinel. -/
def uC10 : SaleUpdate := ⟨none, none, some 0, none, none, none⟩

/-- Witness request for C10: nonzero customer id 7 that does not exist. -/
def vC10 : SaleUpdate := ⟨none, none, some 7, none, none, none⟩

/-- The witness sale row for C10. -/
def sC10 : Sale := ⟨1, 8, "wx", 2, some 9, "2024-07-07", 20, ""⟩

/-- The witness product row for C10. -/
def pC10 : Product := ⟨1, 8, "wx", "", 4, "kg", none, 1⟩

/-- Witness for C10 at a concrete state and requests. -/
theorem claim_c10_witness :
    uC10.customerId = some 0 ∧ vC10.customerId = some 7 ∧ (7 : Nat) ≠ 0 ∧
    customerExists dbC10 8 7 = false ∧ findSale dbC10 8 1 = some sC10 ∧
    findProductByName dbC10 8 (saleLookupName sC10 vC10) = some pC10 ∧
    ¬ (saleNewQuantity sC10 vC10 > sC10.quantity ∧
       pC10.stock < saleNewQuantity sC10 vC10 - sC10.quantity) ∧
    ((∀ d : DB, saleCustomerInvalid d 8 uC10 = false) ∧
     (∀ s2, (update_sale dbC10 8 1 0 uC10).result = .ok s2 → s2.customerId = none) ∧
     (∀ s2, (update_sale dbC10 8 1 0 uC10).result = .ok s2 →
        ∀ t ∈ (update_sale dbC10 8 1 0 uC10).db.sales,
          t.id = 1 → t.userId = 8 → t.customerId = none) ∧
     update_sale dbC10 8 1 0 vC10 = ⟨.error .invalidReference, dbC10, []⟩) :=
  ⟨rfl, rfl, by decide, by decide, rfl, rfl, by decide,
   claim_c10_customer_zero_sentinel dbC10 8 1 0 uC10 vC10 sC10 pC10 7
     rfl rfl (by decide) (by decide) rfl rfl (by decide)⟩

/-- C6 amended: the sale-linked stock mutations (`create_sale`,
`update_sale`, `delete_sale`) and `adjustStock` issue only statements
that assign stock AND carry a version condition in their predicate,
while the general product update (`update_product`) issues only
statements WITHOUT the version condition — whether or not the caller
supplied an expected version (it is pre-checked in application code, not
in the predicate) — assigning stock exactly when the request carries a
stock field. The original claim is refuted by
`claim_c6_counterexample_stock_write_without_version_pred`. -/
theorem claim_c6_amended_statement_discipline (db : DB) (uid pid sid tc : Nat)
    (rc : SaleCreate) (ru : SaleUpdate) (rp : ProductUpdate) (rs : ProductStockUpdate) :
    ((create_sale db uid rc).trace.all fun st =>
      st.setsStock && st.versionCond.isSome) = true ∧
    ((update_sale db uid sid tc ru).trace.all fun st =>
      st.setsStock && st.versionCond.isSome) = true ∧
    ((delete_sale db uid sid).trace.all fun st =>
      st.setsStock && st.versionCond.isSome) = true ∧
    ((update_product_stock db uid pid tc rs).trace.all fun st =>
      st.setsStock && st.versionCond.isSome) = true ∧
    ((update_product db uid pid rp).trace.all fun st =>
      (st.versionCond == none) && (st.setsStock == rp.stock.isSome)) = true := by
  refine ⟨?_, ?_, ?_, ?_, ?_⟩
  · unfold create_sale
    split
    · rfl
    · split
      · rfl
      · split
        · rfl
        · split
          · rfl
          · split <;> rfl
  · unfold update_sale
    split
    · rfl
    · split
      · rfl
      · split
        · rfl
        · split
          · rfl
          · split
            · rfl
            · unfold updateSaleStockPhase
              split
              · rfl
              · split
                · rfl
                · split
                  · unfold updateSaleCross
                    split
                    · split
                      · rfl
                      · unfold updateSaleFinish
                        split <;> rfl
                    · unfold updateSaleFinish
                      split <;> rfl
                  · unfold updateSaleFinish
                    split <;> rfl
  · unfold delete_sale
    split
    · rfl
    · split
      · rfl
      · split <;> rfl
  · unfold update_product_stock
    split
    · rfl
    · split
      · rfl
      · split
        · rfl
        · split <;> rfl
  · unfold update_product
    split
    · rfl
    · split
      · rfl
      · split
        · rfl
        · split
          · rfl
          · split
            · rfl
            · simp

end Agrisale
